import Mathlib

/-!
Verification of the AMD CDX bus MSI support (`drivers/cdx/cdx_msi.c`) and the
VFIO CDX meta-driver (`drivers/vfio/cdx/main.c`) against their natural-language
specification.  The C code is shallowly embedded: machine integers become `Nat`
with explicit `% 2 ^ w` where the width matters, fallible calls return
`Except Int` carrying the negative errno the C function returns, and the
external collaborators (the CDX controller's `dev_configure` op, the MSI core,
the mm layer) are passed in as explicit parameters or values.
-/

namespace CdxSpec

/-! Constants from the kernel headers used by the two translation units.
`PAGE_SHIFT`/`PAGE_SIZE` use the common 4 KiB configuration. -/

def PAGE_SHIFT : Nat := 12

def PAGE_SIZE : Nat := 2 ^ PAGE_SHIFT

def EINVAL : Int := 22

def EPERM : Int := 1

/-- `IORESOURCE_READONLY` from `linux/ioport.h`. -/
def IORESOURCE_READONLY : Nat := 0x10000000

/-- `VFIO_REGION_INFO_FLAG_READ` = bit 0 of `vfio_region_info.flags`. -/
def VFIO_REGION_INFO_FLAG_READ : Nat := 1

/-- `VFIO_REGION_INFO_FLAG_WRITE` = bit 1 of `vfio_region_info.flags`. -/
def VFIO_REGION_INFO_FLAG_WRITE : Nat := 2

/-- `VFIO_REGION_INFO_FLAG_MMAP` = bit 2 of `vfio_region_info.flags`. -/
def VFIO_REGION_INFO_FLAG_MMAP : Nat := 4

/-- `VFIO_IRQ_INFO_EVENTFD` = bit 0 of `vfio_irq_info.flags`. -/
def VFIO_IRQ_INFO_EVENTFD : Nat := 1

/-- `VM_READ` from `linux/mm.h`. -/
def VM_READ : Nat := 1

/-- `VM_WRITE` from `linux/mm.h`. -/
def VM_WRITE : Nat := 2

/-- `REQ_ID_SHIFT` from `drivers/cdx/cdx_msi.c`. -/
def REQ_ID_SHIFT : Nat := 10

/-- Modelled from the spec: `VFIO_CDX_OFFSET_SHIFT` is defined in the driver's
`private.h`, which is not among the two source files; the spec fixes the scheme
as "offset = index << OFFSET_SHIFT (OFFSET_SHIFT chosen so index fits above the
per-region page-offset bits)".  The kernel's value is 40. -/
def VFIO_CDX_OFFSET_SHIFT : Nat := 40

/-! ## Data model -/

/-- One `struct resource` entry of a CDX device: we carry the start address,
the length `resource_size(res)` and the raw `flags` word. -/
structure Resource where
  start : Nat
  size : Nat
  flags : Nat
deriving DecidableEq, Repr

/-- The fields of `struct cdx_device` the two translation units read:
requestor id (`req_id`, a u32), bus/device numbers, the resource table
`res[0 .. res_count)` (so `res_count` is `res.length` here) and the MSI vector
count `num_msi`. -/
structure CdxDevice where
  req_id : Nat
  bus_num : Nat
  dev_num : Nat
  res : List Resource
  num_msi : Nat
deriving DecidableEq, Repr

/-- `struct vfio_cdx_region` from the VFIO CDX driver: address, size, raw
resource type and the derived VFIO capability flag word. -/
structure VfioCdxRegion where
  addr : Nat
  size : Nat
  type : Nat
  flags : Nat
deriving DecidableEq, Repr

instance : Inhabited VfioCdxRegion := ⟨⟨0, 0, 0, 0⟩⟩

/-- The fields of `struct vm_area_struct` read by the mmap path. -/
structure VmArea where
  vm_start : Nat
  vm_end : Nat
  vm_pgoff : Nat
  vm_flags : Nat
deriving DecidableEq, Repr

/-! ## drivers/cdx/cdx_msi.c -/

/-- `cdx_domain_calc_hwirq`: composite hardware identity
`((irq_hw_number_t)dev->req_id << REQ_ID_SHIFT) | desc->msi_index`, computed
in `irq_hw_number_t` (unsigned long, 64-bit) arithmetic. -/
def cdx_domain_calc_hwirq (req_id : Nat) (msi_index : Nat) : Nat :=
  ((req_id <<< REQ_ID_SHIFT) ||| msi_index) % 2 ^ 64

/-- `struct msi_msg`: 32-bit address halves and the message data word. -/
structure MsiMsg where
  address_lo : Nat
  address_hi : Nat
  data : Nat
deriving DecidableEq, Repr

/-- The MSI branch of `struct cdx_device_config` filled by
`cdx_msi_write_msg`: vector index, message data and the packed 64-bit
address. -/
structure CdxMsiConfig where
  msi_index : Nat
  data : Nat
  addr : Nat
deriving DecidableEq, Repr

/-- The observable outcome of `cdx_msi_write_msg`.  The C function has type
`void`: its only effects are storing the message in the descriptor, issuing
one `dev_configure` call, and printing `dev_err` when that call fails.
`retToCaller : Unit` records the value the C function returns to the irq core
(nothing). -/
structure WriteMsgEffect where
  storedMsg : MsiMsg
  configCall : CdxMsiConfig
  errLogged : Bool
  retToCaller : Unit
deriving DecidableEq, Repr

/-- `cdx_msi_write_msg`: store the message, build the MSI config (packing
`addr = ((u64)address_hi << 32) | address_lo`), call the controller's
`dev_configure` op, and log an error if it failed.  `devConfigure` is the
controller op; it returns the C `int` result. -/
def cdx_msi_write_msg (devConfigure : CdxMsiConfig → Int) (msi_index : Nat)
    (msg : MsiMsg) : WriteMsgEffect :=
  let cfg : CdxMsiConfig :=
    ⟨msi_index, msg.data, ((msg.address_hi <<< 32) ||| msg.address_lo) % 2 ^ 64⟩
  let ret := devConfigure cfg
  ⟨msg, cfg, ret != 0, ()⟩

/-- Outcome of `cdx_msi_domain_alloc_irqs`: the returned `int` and, when the
flow reached `msi_domain_alloc_irqs`, the vector count passed to it. -/
structure AllocOutcome where
  ret : Int
  allocCall : Option Nat
deriving DecidableEq, Repr

/-- `cdx_msi_domain_alloc_irqs`: propagate a `msi_setup_device_data` failure;
then fail `-EINVAL` when `msi_first_desc` finds an existing descriptor for the
device; only otherwise call `msi_domain_alloc_irqs` for all `irq_count`
vectors.  `setupRet` is the result of `msi_setup_device_data`,
`existingDescs` the device's current MSI descriptor list (`msi_first_desc`
returns its head) and `domainAllocRet` the result of
`msi_domain_alloc_irqs`. -/
def cdx_msi_domain_alloc_irqs (setupRet : Int) (existingDescs : List Nat)
    (domainAllocRet : Int) (irq_count : Nat) : AllocOutcome :=
  if setupRet != 0 then ⟨setupRet, none⟩
  else if existingDescs.head?.isSome then ⟨-EINVAL, none⟩
  else ⟨domainAllocRet, some irq_count⟩

/-! ## drivers/vfio/cdx/main.c -/

/-- Loop body of `vfio_cdx_open_device` for one resource.  On 64-bit,
`~PAGE_MASK = PAGE_SIZE - 1`, so the alignment test
`!(x & ~PAGE_MASK)` is `x &&& (PAGE_SIZE - 1) = 0`.  The flag word is built
in source order: conditional `MMAP`, unconditional `READ`, conditional
`WRITE`. -/
def vfio_cdx_open_region (res : Resource) : VfioCdxRegion :=
  let flags1 : Nat :=
    if res.start &&& (PAGE_SIZE - 1) = 0 ∧ res.size &&& (PAGE_SIZE - 1) = 0 then
      0 ||| VFIO_REGION_INFO_FLAG_MMAP
    else 0
  let flags2 := flags1 ||| VFIO_REGION_INFO_FLAG_READ
  let flags3 :=
    if res.flags &&& IORESOURCE_READONLY = 0 then
      flags2 ||| VFIO_REGION_INFO_FLAG_WRITE
    else flags2
  ⟨res.start, res.size, res.flags, flags3⟩

/-- `vfio_cdx_open_device`: build the region descriptor array from the
device's resource table (the `kcalloc` failure path, `-ENOMEM`, is the only
other outcome and carries no region data). -/
def vfio_cdx_open_device (dev : CdxDevice) : List VfioCdxRegion :=
  dev.res.map vfio_cdx_open_region

/-- Modelled from the spec: `vfio_cdx_index_to_offset` is defined in the
driver's `private.h`, which is not among the two source files; the spec fixes
it as "offset = index << OFFSET_SHIFT", computed as a u64. -/
def vfio_cdx_index_to_offset (index : Nat) : Nat :=
  (index <<< VFIO_CDX_OFFSET_SHIFT) % 2 ^ 64

/-- Index decode of `vfio_cdx_mmap`:
`index = vma->vm_pgoff >> (VFIO_CDX_OFFSET_SHIFT - PAGE_SHIFT)`, truncated to
`unsigned int` by the assignment. -/
def vfio_cdx_mmap_decode_index (vm_pgoff : Nat) : Nat :=
  (vm_pgoff >>> (VFIO_CDX_OFFSET_SHIFT - PAGE_SHIFT)) % 2 ^ 32

/-- A successful mmap outcome: the first physical page frame number handed to
`io_remap_pfn_range` and the byte length of the mapping. -/
structure MmioMapping where
  pfn : Nat
  size : Nat
deriving DecidableEq, Repr

/-- `vfio_cdx_mmap_mmio`: bounds-check the request against the region and,
when valid, map `size = vma->vm_end - vma->vm_start` bytes at page offset
`pgoff` inside the region (u64 arithmetic throughout; the mm layer guarantees
`vm_start ≤ vm_end`).  A successful `io_remap_pfn_range` returns 0. -/
def vfio_cdx_mmap_mmio (region : VfioCdxRegion) (vma : VmArea) :
    Except Int MmioMapping :=
  let size := (vma.vm_end - vma.vm_start) % 2 ^ 64
  let pgoff := vma.vm_pgoff &&& ((1 <<< (VFIO_CDX_OFFSET_SHIFT - PAGE_SHIFT)) - 1)
  let base := (pgoff <<< PAGE_SHIFT) % 2 ^ 64
  if region.size < PAGE_SIZE ∨ (base + size) % 2 ^ 64 > region.size then
    Except.error (-EINVAL)
  else
    Except.ok ⟨((region.addr >>> PAGE_SHIFT) + pgoff) % 2 ^ 64, size⟩

/-- `vfio_cdx_mmap`: decode the region index from `vm_pgoff`, validate it
against `cdx_dev->res_count`, check the region's MMAP/READ/WRITE capability
flags against the requested `vm_flags`, then delegate to
`vfio_cdx_mmap_mmio`. -/
def vfio_cdx_mmap (dev : CdxDevice) (regions : List VfioCdxRegion)
    (vma : VmArea) : Except Int MmioMapping :=
  let index := vfio_cdx_mmap_decode_index vma.vm_pgoff
  if index ≥ dev.res.length then Except.error (-EINVAL)
  else
    let region := regions.getD index default
    if region.flags &&& VFIO_REGION_INFO_FLAG_MMAP = 0 then
      Except.error (-EINVAL)
    else if region.flags &&& VFIO_REGION_INFO_FLAG_READ = 0 ∧
        vma.vm_flags &&& VM_READ ≠ 0 then
      Except.error (-EINVAL)
    else if region.flags &&& VFIO_REGION_INFO_FLAG_WRITE = 0 ∧
        vma.vm_flags &&& VM_WRITE ≠ 0 then
      Except.error (-EINVAL)
    else vfio_cdx_mmap_mmio region vma

/-- Caller-supplied header of a `VFIO_DEVICE_GET_REGION_INFO` request. -/
structure VfioRegionInfoArg where
  argsz : Nat
  index : Nat
deriving DecidableEq, Repr

/-- Reply of `VFIO_DEVICE_GET_REGION_INFO`. -/
structure VfioRegionInfo where
  offset : Nat
  size : Nat
  flags : Nat
deriving DecidableEq, Repr

/-- `offsetofend(struct vfio_region_info, offset)`: argsz, flags, index,
cap_offset (4 bytes each) then size and offset (8 bytes each). -/
def vfio_region_info_minsz : Nat := 32

/-- `vfio_cdx_ioctl_get_region_info`: reject an undersized header or an index
past `res_count`, else reply with the protocol offset, size and flags of the
region (the `copy_from_user`/`copy_to_user` `-EFAULT` paths are outside the
model). -/
def vfio_cdx_ioctl_get_region_info (dev : CdxDevice)
    (regions : List VfioCdxRegion) (info : VfioRegionInfoArg) :
    Except Int VfioRegionInfo :=
  if info.argsz < vfio_region_info_minsz then Except.error (-EINVAL)
  else if info.index ≥ dev.res.length then Except.error (-EINVAL)
  else
    Except.ok ⟨vfio_cdx_index_to_offset info.index,
      (regions.getD info.index default).size,
      (regions.getD info.index default).flags⟩

/-- Caller-supplied header of a `VFIO_DEVICE_GET_IRQ_INFO` request. -/
structure VfioIrqInfoArg where
  argsz : Nat
  index : Nat
deriving DecidableEq, Repr

/-- Reply of `VFIO_DEVICE_GET_IRQ_INFO`. -/
structure VfioIrqInfo where
  flags : Nat
  count : Nat
deriving DecidableEq, Repr

/-- `offsetofend(struct vfio_irq_info, count)`: argsz, flags, index and count,
4 bytes each. -/
def vfio_irq_info_minsz : Nat := 16

/-- `vfio_cdx_ioctl_get_irq_info`: reject an undersized header or any group
index other than 0, else reply `flags = VFIO_IRQ_INFO_EVENTFD` and
`count = cdx_dev->num_msi`. -/
def vfio_cdx_ioctl_get_irq_info (dev : CdxDevice) (info : VfioIrqInfoArg) :
    Except Int VfioIrqInfo :=
  if info.argsz < vfio_irq_info_minsz then Except.error (-EINVAL)
  else if info.index ≥ 1 then Except.error (-EINVAL)
  else Except.ok ⟨VFIO_IRQ_INFO_EVENTFD, dev.num_msi⟩

/-- The side effects of `vfio_cdx_close_device`, in execution order. -/
inductive CloseEvent where
  | freeRegions : CloseEvent
  | resetDevice : CloseEvent
  | warnResetFailed : Int → CloseEvent
  | irqsCleanup : CloseEvent
deriving DecidableEq, Repr

/-- `vfio_cdx_close_device` as its trace of side effects: free the region
array, issue `cdx_dev_reset` (whose result is `resetRet`), warn when the
reset failed, then run `vfio_cdx_irqs_cleanup`. -/
def vfio_cdx_close_device (resetRet : Int) : List CloseEvent :=
  [CloseEvent.freeRegions, CloseEvent.resetDevice] ++
    (if resetRet != 0 then [CloseEvent.warnResetFailed resetRet] else []) ++
      [CloseEvent.irqsCleanup]

/-! ## Helper lemmas -/

/-- Or-ing a value shifted `k` bits left with a `k`-bit value is plain
addition: the bit ranges are disjoint. -/
theorem shiftLeft_or_eq_mul_add (a : Nat) (v : Nat) (k : Nat) (h : v < 2 ^ k) :
    (a <<< k) ||| v = a * 2 ^ k + v := by
  rw [Nat.shiftLeft_eq, Nat.mul_comm]
  exact (Nat.mul_add_lt_is_or h a).symm

/-- Closed form of the composite hardware identity when the requestor id fits
in 32 bits (its C type is `u32`) and the vector index is below
`2 ^ REQ_ID_SHIFT`. -/
theorem cdx_domain_calc_hwirq_eq (req_id : Nat) (v : Nat) (hr : req_id < 2 ^ 32)
    (hv : v < 2 ^ REQ_ID_SHIFT) :
    cdx_domain_calc_hwirq req_id v = req_id * 2 ^ REQ_ID_SHIFT + v := by
  unfold cdx_domain_calc_hwirq
  rw [shiftLeft_or_eq_mul_add _ _ _ hv]
  apply Nat.mod_eq_of_lt
  unfold REQ_ID_SHIFT at hv ⊢
  norm_num at hr hv ⊢
  omega

/-! ## Claims -/

/-- C1, counterexample: the claim fails as stated.  Take device A with
requestor id 0 and device B with requestor id 1 (distinct devices on one
domain), and A's vector with local index 1024 (the `msi_index` field is a u16,
so 1024 is representable, and nothing in `cdx_msi_domain_alloc_irqs` bounds
`irq_count`): both pairs compute the composite identity 1024. -/
theorem c1_hwirq_collision :
    cdx_domain_calc_hwirq 0 1024 = cdx_domain_calc_hwirq 1 0 ∧ (0 : Nat) ≠ 1 := by
  constructor
  · decide
  · decide

/-- C1, amended: for two devices with distinct requestor ids (both u32), and
vector indices below `2 ^ REQ_ID_SHIFT = 1024`, the composite hardware
identities `(req_id << 10) | index` differ. -/
theorem c1_hwirq_distinct (a b va vb : Nat) (ha : a < 2 ^ 32) (hb : b < 2 ^ 32)
    (hva : va < 2 ^ REQ_ID_SHIFT) (hvb : vb < 2 ^ REQ_ID_SHIFT) (hab : a ≠ b) :
    cdx_domain_calc_hwirq a va ≠ cdx_domain_calc_hwirq b vb := by
  rw [cdx_domain_calc_hwirq_eq a va ha hva, cdx_domain_calc_hwirq_eq b vb hb hvb]
  intro h
  apply hab
  unfold REQ_ID_SHIFT at hva hvb h
  norm_num at hva hvb h
  omega

/-- C1, witness for the amended theorem at requestor ids 5 and 7, both
vector indices 3. -/
theorem c1_hwirq_distinct_witness :
    cdx_domain_calc_hwirq 5 3 ≠ cdx_domain_calc_hwirq 7 3 :=
  c1_hwirq_distinct 5 7 3 3 (by decide) (by decide) (by decide) (by decide)
    (by decide)

/-- C2: for every region index below `2 ^ 24` (so that `index << 40` fits in
a u64), decoding the page-number form of the encoded protocol offset yields
the index back, and the decode function is total, returning a value below
`2 ^ 32` on every input. -/
theorem c2_offset_roundtrip :
    (∀ i : Nat, i < 2 ^ 24 →
      vfio_cdx_mmap_decode_index (vfio_cdx_index_to_offset i >>> PAGE_SHIFT) = i) ∧
    (∀ vm_pgoff : Nat, vfio_cdx_mmap_decode_index vm_pgoff < 2 ^ 32) := by
  constructor
  · intro i hi
    unfold vfio_cdx_index_to_offset vfio_cdx_mmap_decode_index
      VFIO_CDX_OFFSET_SHIFT PAGE_SHIFT
    rw [Nat.shiftLeft_eq, Nat.shiftRight_eq_div_pow, Nat.shiftRight_eq_div_pow]
    omega
  · intro vm_pgoff
    exact Nat.mod_lt _ (by norm_num)

/-- C2, witness at index 5. -/
theorem c2_offset_roundtrip_witness :
    vfio_cdx_mmap_decode_index (vfio_cdx_index_to_offset 5 >>> PAGE_SHIFT) = 5 :=
  c2_offset_roundtrip.1 5 (by decide)

/-- C3: a mapping request fails with `-EINVAL` whenever the decoded region
index is at least the device's region count, or the addressed region's size
is below one page, or the decoded page offset in bytes plus the requested
length exceeds the region's size; in particular a request whose length
exceeds the region's size always fails with `-EINVAL` and no mapping is
established.  The hypothesis bounds the request length by `2 ^ 48` (user
VMAs live below the architectural task-size limit), keeping the 64-bit
arithmetic overflow-free. -/
theorem c3_mmap_bounds (dev : CdxDevice) (regions : List VfioCdxRegion)
    (vma : VmArea) (hvma : vma.vm_end - vma.vm_start < 2 ^ 48) :
    ((vfio_cdx_mmap_decode_index vma.vm_pgoff ≥ dev.res.length ∨
        (regions.getD (vfio_cdx_mmap_decode_index vma.vm_pgoff) default).size
          < PAGE_SIZE ∨
        (vma.vm_pgoff &&& ((1 <<< (VFIO_CDX_OFFSET_SHIFT - PAGE_SHIFT)) - 1))
            * PAGE_SIZE + (vma.vm_end - vma.vm_start)
          > (regions.getD (vfio_cdx_mmap_decode_index vma.vm_pgoff) default).size) →
      vfio_cdx_mmap dev regions vma = Except.error (-EINVAL)) ∧
    ((vma.vm_end - vma.vm_start)
        > (regions.getD (vfio_cdx_mmap_decode_index vma.vm_pgoff) default).size →
      vfio_cdx_mmap dev regions vma = Except.error (-EINVAL)) := by
  have hmask : (1 <<< (VFIO_CDX_OFFSET_SHIFT - PAGE_SHIFT)) - 1 = 2 ^ 28 - 1 := by
    norm_num [Nat.shiftLeft_eq, VFIO_CDX_OFFSET_SHIFT, PAGE_SHIFT]
  have hp : vma.vm_pgoff &&& ((1 <<< (VFIO_CDX_OFFSET_SHIFT - PAGE_SHIFT)) - 1)
      < 2 ^ 28 := by
    rw [hmask, Nat.and_pow_two_sub_one_eq_mod]
    exact Nat.mod_lt _ (by norm_num)
  have hA : (vfio_cdx_mmap_decode_index vma.vm_pgoff ≥ dev.res.length ∨
      (regions.getD (vfio_cdx_mmap_decode_index vma.vm_pgoff) default).size
        < PAGE_SIZE ∨
      (vma.vm_pgoff &&& ((1 <<< (VFIO_CDX_OFFSET_SHIFT - PAGE_SHIFT)) - 1))
          * PAGE_SIZE + (vma.vm_end - vma.vm_start)
        > (regions.getD (vfio_cdx_mmap_decode_index vma.vm_pgoff) default).size) →
      vfio_cdx_mmap dev regions vma = Except.error (-EINVAL) := by
    intro hd
    simp only [vfio_cdx_mmap, vfio_cdx_mmap_mmio]
    split_ifs with h1 h2 h3 h4 h5
    · rfl
    · rfl
    · rfl
    · rfl
    · rfl
    · exfalso
      rcases hd with hd | hd | hd
      · exact h1 hd
      · exact h5 (Or.inl hd)
      · apply h5
        right
        rw [Nat.shiftLeft_eq]
        have hps : (2 : Nat) ^ PAGE_SHIFT = 4096 := by norm_num [PAGE_SHIFT]
        rw [hps]
        have e1 : (vma.vm_end - vma.vm_start) % 2 ^ 64 =
            vma.vm_end - vma.vm_start := Nat.mod_eq_of_lt (by omega)
        have e2 : (vma.vm_pgoff &&&
            ((1 <<< (VFIO_CDX_OFFSET_SHIFT - PAGE_SHIFT)) - 1)) * 4096 % 2 ^ 64 =
            (vma.vm_pgoff &&&
            ((1 <<< (VFIO_CDX_OFFSET_SHIFT - PAGE_SHIFT)) - 1)) * 4096 :=
          Nat.mod_eq_of_lt (by omega)
        rw [e1, e2, Nat.mod_eq_of_lt (by omega)]
        have hpsz : PAGE_SIZE = 4096 := by norm_num [PAGE_SIZE, PAGE_SHIFT]
        rw [hpsz] at hd
        exact hd
  refine ⟨hA, fun h => hA ?_⟩
  right
  right
  exact Nat.lt_of_lt_of_le h (Nat.le_add_left _ _)
/-- C3, witness: a request of length 0x2000 on a device whose only region is
0x1000 bytes fails with `-EINVAL`. -/
theorem c3_mmap_bounds_witness :
    vfio_cdx_mmap ⟨0, 0, 0, [⟨0, 4096, 0⟩], 1⟩
      (vfio_cdx_open_device ⟨0, 0, 0, [⟨0, 4096, 0⟩], 1⟩) ⟨0, 8192, 0, 1⟩ =
      Except.error (-EINVAL) :=
  (c3_mmap_bounds ⟨0, 0, 0, [⟨0, 4096, 0⟩], 1⟩
    (vfio_cdx_open_device ⟨0, 0, 0, [⟨0, 4096, 0⟩], 1⟩) ⟨0, 8192, 0, 1⟩
    (by decide)).2 (by decide)

/-- C4, counterexample: the claim fails as stated.  On a device whose single
region is page-aligned but read-only, a request with both read and write
access (`vm_flags = VM_READ ||| VM_WRITE = 3`) is rejected with `-EINVAL`
(InvalidArgument), not `-EPERM` (PermissionDenied): both permission checks in
`vfio_cdx_mmap` return `-EINVAL`. -/
theorem c4_mmap_error_code :
    vfio_cdx_mmap ⟨0, 0, 0, [⟨0, 4096, IORESOURCE_READONLY⟩], 1⟩
      (vfio_cdx_open_device ⟨0, 0, 0, [⟨0, 4096, IORESOURCE_READONLY⟩], 1⟩)
      ⟨0, 4096, 0, 3⟩ = Except.error (-EINVAL) ∧ (-EINVAL : Int) ≠ -EPERM := by
  constructor
  · rfl
  · decide

/-- C4, amended: a mapping request fails with `-EINVAL` (InvalidArgument, the
same code as the other validation failures, not PermissionDenied) when the
requested access includes write but the addressed region lacks
`VFIO_REGION_INFO_FLAG_WRITE`, or when its `VFIO_REGION_INFO_FLAG_MMAP` flag
is clear. -/
theorem c4_mmap_permission (dev : CdxDevice) (regions : List VfioCdxRegion)
    (vma : VmArea)
    (_hidx : vfio_cdx_mmap_decode_index vma.vm_pgoff < dev.res.length)
    (hcond : (regions.getD (vfio_cdx_mmap_decode_index vma.vm_pgoff) default).flags
        &&& VFIO_REGION_INFO_FLAG_MMAP = 0 ∨
      ((regions.getD (vfio_cdx_mmap_decode_index vma.vm_pgoff) default).flags
          &&& VFIO_REGION_INFO_FLAG_WRITE = 0 ∧
        vma.vm_flags &&& VM_WRITE ≠ 0)) :
    vfio_cdx_mmap dev regions vma = Except.error (-EINVAL) := by
  simp only [vfio_cdx_mmap, vfio_cdx_mmap_mmio]
  split_ifs with h1 h2 h3 h4 h5
  · rfl
  · rfl
  · rfl
  · rfl
  · rfl
  · exfalso
    rcases hcond with hc | hc
    · exact h2 hc
    · exact h4 hc

/-- C4, witness for the amended theorem: write access to a read-only region
fails with `-EINVAL`. -/
theorem c4_mmap_permission_witness :
    vfio_cdx_mmap ⟨0, 0, 0, [⟨4096, 4096, IORESOURCE_READONLY⟩], 1⟩
      (vfio_cdx_open_device ⟨0, 0, 0, [⟨4096, 4096, IORESOURCE_READONLY⟩], 1⟩)
      ⟨0, 4096, 0, 3⟩ = Except.error (-EINVAL) :=
  c4_mmap_permission ⟨0, 0, 0, [⟨4096, 4096, IORESOURCE_READONLY⟩], 1⟩
    (vfio_cdx_open_device ⟨0, 0, 0, [⟨4096, 4096, IORESOURCE_READONLY⟩], 1⟩)
    ⟨0, 4096, 0, 3⟩ (by decide) (by decide)

/-- C5: for every region descriptor built by `vfio_cdx_open_device`,
`VFIO_REGION_INFO_FLAG_MMAP` is set iff both the base address and the size
are page-aligned, `VFIO_REGION_INFO_FLAG_WRITE` is set iff the source
resource is not flagged `IORESOURCE_READONLY`, and
`VFIO_REGION_INFO_FLAG_READ` is always set. -/
theorem c5_region_flags (res : Resource) :
    ((vfio_cdx_open_region res).flags &&& VFIO_REGION_INFO_FLAG_MMAP ≠ 0 ↔
      res.start % PAGE_SIZE = 0 ∧ res.size % PAGE_SIZE = 0) ∧
    ((vfio_cdx_open_region res).flags &&& VFIO_REGION_INFO_FLAG_WRITE ≠ 0 ↔
      res.flags &&& IORESOURCE_READONLY = 0) ∧
    (vfio_cdx_open_region res).flags &&& VFIO_REGION_INFO_FLAG_READ ≠ 0 := by
  have hs : res.start &&& (PAGE_SIZE - 1) = res.start % PAGE_SIZE :=
    Nat.and_pow_two_sub_one_eq_mod res.start 12
  have hz : res.size &&& (PAGE_SIZE - 1) = res.size % PAGE_SIZE :=
    Nat.and_pow_two_sub_one_eq_mod res.size 12
  simp only [vfio_cdx_open_region, hs, hz]
  by_cases h1 : res.start % PAGE_SIZE = 0 ∧ res.size % PAGE_SIZE = 0 <;>
    by_cases h2 : res.flags &&& IORESOURCE_READONLY = 0 <;>
      simp [h1, h2, VFIO_REGION_INFO_FLAG_MMAP, VFIO_REGION_INFO_FLAG_READ,
        VFIO_REGION_INFO_FLAG_WRITE] <;> decide

/-- C6, counterexample: the claim fails as stated.  `cdx_msi_write_msg` is a
`void` callback: when the controller's configure op fails (here it returns
-5), the error is logged (`errLogged = true`) and nothing is returned to the
caller — the value the caller receives is identical to the one it receives
when the configure op succeeds, so the IOError is masked, not propagated. -/
theorem c6_write_msg_masks_error :
    (cdx_msi_write_msg (fun _ => -5) 0 ⟨4096, 2, 7⟩).errLogged = true ∧
    (cdx_msi_write_msg (fun _ => -5) 0 ⟨4096, 2, 7⟩).retToCaller =
      (cdx_msi_write_msg (fun _ => 0) 0 ⟨4096, 2, 7⟩).retToCaller := by
  constructor
  · rfl
  · rfl

/-- C6, amended: `cdx_msi_write_msg` packs the 64-bit address from the 32-bit
low/high halves, issues one configure call tagged with the vector index and
carrying the message data, stores the message in the descriptor, and logs an
error exactly when the controller call fails; the failure is not retried and
not returned to the caller (the callback is `void`). -/
theorem c6_write_msg_config (devConfigure : CdxMsiConfig → Int) (idx : Nat)
    (msg : MsiMsg) (hlo : msg.address_lo < 2 ^ 32)
    (hhi : msg.address_hi < 2 ^ 32) :
    (cdx_msi_write_msg devConfigure idx msg).configCall =
      ⟨idx, msg.data, msg.address_hi * 2 ^ 32 + msg.address_lo⟩ ∧
    (cdx_msi_write_msg devConfigure idx msg).storedMsg = msg ∧
    ((cdx_msi_write_msg devConfigure idx msg).errLogged = true ↔
      devConfigure (cdx_msi_write_msg devConfigure idx msg).configCall ≠ 0) ∧
    (cdx_msi_write_msg devConfigure idx msg).retToCaller = () := by
  have haddr : ((msg.address_hi <<< 32) ||| msg.address_lo) % 2 ^ 64 =
      msg.address_hi * 2 ^ 32 + msg.address_lo := by
    rw [shiftLeft_or_eq_mul_add _ _ _ hlo]
    apply Nat.mod_eq_of_lt
    norm_num at hhi hlo ⊢
    omega
  refine ⟨?_, rfl, ?_, rfl⟩
  · simp only [cdx_msi_write_msg, haddr]
  · simp only [cdx_msi_write_msg, bne_iff_ne, ne_eq]

/-- C6, witness for the amended theorem at a concrete message. -/
theorem c6_write_msg_config_witness :
    (cdx_msi_write_msg (fun _ => -5) 3 ⟨16, 2, 7⟩).configCall =
      ⟨3, 7, 2 * 2 ^ 32 + 16⟩ :=
  (c6_write_msg_config (fun _ => -5) 3 ⟨16, 2, 7⟩ (by decide) (by decide)).1

/-- C7: closing the session frees the region array, then issues the device
reset, then cleans up the interrupts, in that order; a failed reset
(`resetRet ≠ 0`) adds a warning but interrupt cleanup still runs. -/
theorem c7_close_teardown (r : Int) :
    (r = 0 → vfio_cdx_close_device r =
      [CloseEvent.freeRegions, CloseEvent.resetDevice, CloseEvent.irqsCleanup]) ∧
    (r ≠ 0 → vfio_cdx_close_device r =
      [CloseEvent.freeRegions, CloseEvent.resetDevice,
        CloseEvent.warnResetFailed r, CloseEvent.irqsCleanup]) := by
  constructor
  · intro h
    subst h
    rfl
  · intro h
    simp [vfio_cdx_close_device, bne_iff_ne, h]

/-- C7, witness: close with a failed reset (code -5) still ends in interrupt
cleanup, right after the warning. -/
theorem c7_close_teardown_witness :
    vfio_cdx_close_device (-5) =
      [CloseEvent.freeRegions, CloseEvent.resetDevice,
        CloseEvent.warnResetFailed (-5), CloseEvent.irqsCleanup] :=
  (c7_close_teardown (-5)).2 (by decide)

/-- C8: with `msi_setup_device_data` succeeding, vector allocation fails with
`-EINVAL` — without calling `msi_domain_alloc_irqs` — whenever any MSI
descriptor for the device already exists, and only otherwise allocates all
`irq_count` vectors together through the MSI domain. -/
theorem c8_alloc_single_epoch (setupRet : Int) (descs : List Nat)
    (allocRet : Int) (n : Nat) (hsetup : setupRet = 0) :
    (descs ≠ [] →
      cdx_msi_domain_alloc_irqs setupRet descs allocRet n = ⟨-EINVAL, none⟩) ∧
    (descs = [] →
      cdx_msi_domain_alloc_irqs setupRet descs allocRet n = ⟨allocRet, some n⟩) := by
  subst hsetup
  constructor
  · intro h
    cases descs with
    | nil => exact absurd rfl h
    | cons a t => rfl
  · intro h
    subst h
    rfl

/-- C8, witness: one pre-existing descriptor makes allocation fail with
`-EINVAL` and the MSI-domain allocation is never reached. -/
theorem c8_alloc_single_epoch_witness :
    cdx_msi_domain_alloc_irqs 0 [7] 0 4 = ⟨-EINVAL, none⟩ :=
  (c8_alloc_single_epoch 0 [7] 0 4 rfl).1 (by decide)

/-- C9: with a well-sized header, `VFIO_DEVICE_GET_IRQ_INFO` fails with
`-EINVAL` for every group index ≥ 1, and for index 0 succeeds with the
eventfd-notification flag and count equal to the device's `num_msi`. -/
theorem c9_irq_info (dev : CdxDevice) (info : VfioIrqInfoArg)
    (hargsz : vfio_irq_info_minsz ≤ info.argsz) :
    (info.index ≥ 1 →
      vfio_cdx_ioctl_get_irq_info dev info = Except.error (-EINVAL)) ∧
    (info.index = 0 →
      vfio_cdx_ioctl_get_irq_info dev info =
        Except.ok ⟨VFIO_IRQ_INFO_EVENTFD, dev.num_msi⟩) := by
  have h1 : ¬ info.argsz < vfio_irq_info_minsz := Nat.not_lt.mpr hargsz
  constructor
  · intro h
    simp [vfio_cdx_ioctl_get_irq_info, h1, h]
  · intro h
    simp [vfio_cdx_ioctl_get_irq_info, h1, h]

/-- C9, witness: on a device with 5 vectors, index 1 fails with `-EINVAL`. -/
theorem c9_irq_info_witness :
    vfio_cdx_ioctl_get_irq_info ⟨0, 0, 0, [], 5⟩ ⟨16, 1⟩ =
      Except.error (-EINVAL) :=
  (c9_irq_info ⟨0, 0, 0, [], 5⟩ ⟨16, 1⟩ (by decide)).1 (by decide)

/-- Every region descriptor built by `vfio_cdx_open_region` has the READ
capability flag set, whatever the resource's raw flags. -/
theorem open_region_readable (res : Resource) :
    (vfio_cdx_open_region res).flags &&& VFIO_REGION_INFO_FLAG_READ ≠ 0 := by
  simp only [vfio_cdx_open_region]
  by_cases h1 : res.start &&& (PAGE_SIZE - 1) = 0 ∧ res.size &&& (PAGE_SIZE - 1) = 0 <;>
    by_cases h2 : res.flags &&& IORESOURCE_READONLY = 0 <;>
      simp [h1, h2, VFIO_REGION_INFO_FLAG_MMAP, VFIO_REGION_INFO_FLAG_READ,
        VFIO_REGION_INFO_FLAG_WRITE]

/-- C10: every region descriptor built at session open has
`VFIO_REGION_INFO_FLAG_READ` set, regardless of the resource's raw flags, so
the mmap-path rejection of a read-access request on a non-readable region
(`flags &&& READ = 0 ∧ vm_flags &&& VM_READ ≠ 0` in `vfio_cdx_mmap`) can
never hold for a region produced by `vfio_cdx_open_device`. -/
theorem c10_open_regions_readable (dev : CdxDevice) (vma : VmArea) (i : Nat)
    (h : i < (vfio_cdx_open_device dev).length) :
    (vfio_cdx_open_device dev)[i].flags &&& VFIO_REGION_INFO_FLAG_READ ≠ 0 ∧
    ¬((vfio_cdx_open_device dev)[i].flags &&& VFIO_REGION_INFO_FLAG_READ = 0 ∧
      vma.vm_flags &&& VM_READ ≠ 0) := by
  have hlen : i < dev.res.length := by
    simpa [vfio_cdx_open_device] using h
  have hmap : (vfio_cdx_open_device dev)[i] =
      vfio_cdx_open_region dev.res[i] := by
    simp [vfio_cdx_open_device]
  rw [hmap]
  exact ⟨open_region_readable dev.res[i],
    fun hc => open_region_readable dev.res[i] hc.1⟩

/-- C10, witness on a one-region device. -/
theorem c10_open_regions_readable_witness :
    (vfio_cdx_open_device ⟨0, 0, 0, [⟨4096, 16, 0⟩], 1⟩)[0].flags &&&
        VFIO_REGION_INFO_FLAG_READ ≠ 0 ∧
    ¬((vfio_cdx_open_device ⟨0, 0, 0, [⟨4096, 16, 0⟩], 1⟩)[0].flags &&&
        VFIO_REGION_INFO_FLAG_READ = 0 ∧ (3 : Nat) &&& VM_READ ≠ 0) :=
  c10_open_regions_readable ⟨0, 0, 0, [⟨4096, 16, 0⟩], 1⟩ ⟨0, 4096, 0, 3⟩ 0
    (by decide)

end CdxSpec
